import Mathlib

/-!
Verification development for the BME280 driver core (bme280.c / bme280.h) of
the LoggerSoft repository.  The driver state machine, configuration codec,
calibration parser and compensation engine are shallowly embedded below.
The external bus capability (read / write / delay) is modelled as a state
machine over an abstract state type together with an explicit trace of the
bus events a call performs.
-/

namespace BME280

/-! ## Machine-integer helpers (C integer conversions) -/

/-- Two's-complement reinterpretation of a byte value as `int8_t`. -/
def toI8 (n : Nat) : Int :=
  let m := n % 256
  if m < 128 then (m : Int) else (m : Int) - 256

/-- Two's-complement reinterpretation of a 16-bit value as `int16_t`. -/
def toI16 (n : Nat) : Int :=
  let m := n % 65536
  if m < 32768 then (m : Int) else (m : Int) - 65536

/-- Wrap an integer to `int32_t` two's-complement range. -/
def toI32 (i : Int) : Int :=
  (i + 2147483648) % 4294967296 - 2147483648

/-- Wrap an integer to `int64_t` two's-complement range. -/
def toI64 (i : Int) : Int :=
  (i + 9223372036854775808) % 18446744073709551616 - 9223372036854775808

/-- Reinterpret an integer as `uint32_t` (value modulo 2^32). -/
def toU32 (i : Int) : Nat :=
  (i % 4294967296).toNat

/-! ## Constants

Modelled from the spec: the header `bme280_definitions.h` (register address
map, error-code values and enumerated configuration codes, spec sections 6
and 7) is not part of the provided sources; only the distinctness of the
error kinds and of the register addresses matters below. -/

/-- Modelled from the spec: success code. -/
def BME280_OK : Int := 0
/-- Modelled from the spec: ParameterError. -/
def BME280_PARAM_ERR : Int := -1
/-- Modelled from the spec: InterfaceError. -/
def BME280_INTERFACE_ERR : Int := -2
/-- Modelled from the spec: identity-mismatch error (never produced, spec section 9). -/
def BME280_ID_ERR : Int := -3
/-- Modelled from the spec: NotInitializedError. -/
def BME280_NO_INIT_ERR : Int := -4
/-- Modelled from the spec: ConditionError. -/
def BME280_CONDITION_ERR : Int := -5
/-- Modelled from the spec: BusyError. -/
def BME280_BUSY_ERR : Int := -6

/-- Modelled from the spec: identity register address. -/
def BME280_ID_ADDR : Nat := 0xD0
/-- Modelled from the spec: reset register address. -/
def BME280_RESET_ADDR : Nat := 0xE0
/-- Modelled from the spec: fixed magic reset command value. -/
def BME280_RESET_VALUE : Nat := 0xB6
/-- Modelled from the spec: first calibration range address. -/
def BME280_CALIB_DATA1_ADDR : Nat := 0x88
/-- First calibration range length (the source buffer splits at index 25). -/
def BME280_CALIB_DATA1_LEN : Nat := 25
/-- Modelled from the spec: second calibration range address. -/
def BME280_CALIB_DATA2_ADDR : Nat := 0xE1
/-- Second calibration range length (7 bytes, spec section 4.3). -/
def BME280_CALIB_DATA2_LEN : Nat := 7
/-- Modelled from the spec: humidity-control register address. -/
def BME280_CTRL_HUM_ADDR : Nat := 0xF2
/-- Modelled from the spec: status register address. -/
def BME280_STATUS_ADDR : Nat := 0xF3
/-- Modelled from the spec: measurement-control register address. -/
def BME280_CTRL_MEAS_ADDR : Nat := 0xF4
/-- Modelled from the spec: config register address. -/
def BME280_CONFIG_ADDR : Nat := 0xF5

/-- Modelled from the spec: sleep mode code. -/
def BME280_SLEEPMODE : Nat := 0x00
/-- Modelled from the spec: forced mode code. -/
def BME280_FORCEDMODE : Nat := 0x01
/-- Modelled from the spec: normal mode code. -/
def BME280_NORMALMODE : Nat := 0x03

/-- Modelled from the spec: oversampling x2 register code. -/
def BME280_OVERSAMPLING_X2 : Nat := 0x02
/-- Oversampling x4 register code (the source maps it to multiplier 4). -/
def BME280_OVERSAMPLING_X4 : Nat := 0x03
/-- Oversampling x8 register code (the source comment names 0x04 as x8). -/
def BME280_OVERSAMPLING_X8 : Nat := 0x04
/-- Modelled from the spec: highest accepted oversampling register code. -/
def BME280_OVERSAMPLING_X16 : Nat := 0x05
/-- Modelled from the spec: highest accepted standby-time register code. -/
def BME280_STBY_20MS : Nat := 0x07
/-- Modelled from the spec: highest accepted IIR-filter register code. -/
def BME280_FILTER_16 : Nat := 0x04

/-- Internal mode enum of bme280.c: `sleep_mode`. -/
def sleep_mode : Nat := 0x00
/-- Internal mode enum of bme280.c: `forced_mode`. -/
def forced_mode : Nat := 0x01
/-- Internal mode enum of bme280.c: `normal_mode`. -/
def normal_mode : Nat := 0x03

/-! ## Data model -/

/-- Factory calibration trims, `BME280_calibration_data` of the driver.
Unsigned fields are `Nat`, signed fields are `Int` in their two's-complement
interpreted value. -/
structure BME280_calibration_data where
  dig_T1 : Nat
  dig_T2 : Int
  dig_T3 : Int
  dig_P1 : Nat
  dig_P2 : Int
  dig_P3 : Int
  dig_P4 : Int
  dig_P5 : Int
  dig_P6 : Int
  dig_P7 : Int
  dig_P8 : Int
  dig_P9 : Int
  dig_H1 : Nat
  dig_H2 : Int
  dig_H3 : Nat
  dig_H4 : Int
  dig_H5 : Int
  dig_H6 : Int
deriving DecidableEq, Repr

/-- Device state `BME280_t` (the `driver` pointer is passed separately to
each operation instead of being stored as a field). -/
structure BME280_t where
  mode : Nat
  initialized : Bool
  trimm : BME280_calibration_data
  t_fine : Int
deriving DecidableEq, Repr

/-- Bus capability `BME280_Driver_t`: a register read returns `none` on a
transport failure and the bytes read on success; a register write returns
the platform's `int8_t` result code (0 = success).  Both thread an abstract
bus state.  `has…` flags model the NULL checks on the function pointers. -/
structure BME280_Driver_t (σ : Type) where
  read : Nat → Nat → σ → Option (List Nat) × σ
  write : Nat → Nat → σ → Int × σ
  hasRead : Bool
  hasWrite : Bool
  hasDelay : Bool

/-- One observable bus interaction. -/
inductive BusEvent where
  | rd : Nat → Nat → BusEvent
  | wr : Nat → Nat → BusEvent
  | dl : Nat → BusEvent
deriving DecidableEq, Repr

/-- Result of running a driver operation: returned code, updated device,
updated bus state, and the ordered trace of bus events performed. -/
structure Outcome (σ : Type) where
  res : Int
  dev : BME280_t
  st : σ
  tr : List BusEvent

/-- Number of bus writes in a trace. -/
def writeCount (tr : List BusEvent) : Nat :=
  tr.countP fun e => match e with | .wr _ _ => true | _ => false

/-- Number of bus reads in a trace. -/
def readCount (tr : List BusEvent) : Nat :=
  tr.countP fun e => match e with | .rd _ _ => true | _ => false

/-! ## Mode state machine helpers -/

/-- `bme280_is_sleep_mode` of bme280.c. -/
def bme280_is_sleep_mode (dev : BME280_t) : Int :=
  if dev.initialized = false then BME280_NO_INIT_ERR
  else if dev.mode ≠ sleep_mode then BME280_CONDITION_ERR
  else BME280_OK

/-- `bme280_is_normal_mode` of bme280.c. -/
def bme280_is_normal_mode (dev : BME280_t) : Int :=
  if dev.initialized = false then BME280_NO_INIT_ERR
  else if dev.mode ≠ normal_mode then BME280_CONDITION_ERR
  else BME280_OK

/-! ## Reset -/

/-- `BME280_Reset` of bme280.c: writes the reset command, then
unconditionally sets the local mode to sleep and returns the write's own
result code. -/
def BME280_Reset {σ : Type} (d : BME280_Driver_t σ) (dev : BME280_t) (s : σ) :
    Outcome σ :=
  if d.hasWrite = false then ⟨BME280_PARAM_ERR, dev, s, []⟩
  else
    let ws := d.write BME280_RESET_ADDR BME280_RESET_VALUE s
    ⟨ws.1, { dev with mode := sleep_mode }, ws.2,
      [.wr BME280_RESET_ADDR BME280_RESET_VALUE]⟩

/-! ## Per-field setters (USE_SETTERS block of bme280.c)

Each setter follows the source: parameter range check, then
`bme280_is_sleep_mode`, then a read of the relevant register, a no-op
short-circuit when the current field already equals the request, and
otherwise a single write whose raw result code is returned.  Register
bytes read from the bus are reduced mod 256 (they fill a `uint8_t`). -/

/-- `BME280_SetPOvs` of bme280.c. -/
def BME280_SetPOvs {σ : Type} (d : BME280_Driver_t σ) (dev : BME280_t)
    (POvs : Nat) (s : σ) : Outcome σ :=
  if POvs > BME280_OVERSAMPLING_X16 then ⟨BME280_PARAM_ERR, dev, s, []⟩
  else if bme280_is_sleep_mode dev ≠ BME280_OK then
    ⟨bme280_is_sleep_mode dev, dev, s, []⟩
  else
    match d.read BME280_CTRL_MEAS_ADDR 1 s with
    | (none, s1) =>
        ⟨BME280_INTERFACE_ERR, dev, s1, [.rd BME280_CTRL_MEAS_ADDR 1]⟩
    | (some bs, s1) =>
        let ctrl_meas := bs.getD 0 0 % 256
        let tmp := (ctrl_meas >>> 2) &&& 0x07
        if POvs = tmp then ⟨BME280_OK, dev, s1, [.rd BME280_CTRL_MEAS_ADDR 1]⟩
        else
          let cm := (ctrl_meas &&& 0xE3) ||| (POvs <<< 2)
          let ws := d.write BME280_CTRL_MEAS_ADDR cm s1
          ⟨ws.1, dev, ws.2,
            [.rd BME280_CTRL_MEAS_ADDR 1, .wr BME280_CTRL_MEAS_ADDR cm]⟩

/-- `BME280_SetTOvs` of bme280.c. -/
def BME280_SetTOvs {σ : Type} (d : BME280_Driver_t σ) (dev : BME280_t)
    (TOvs : Nat) (s : σ) : Outcome σ :=
  if TOvs > BME280_OVERSAMPLING_X16 then ⟨BME280_PARAM_ERR, dev, s, []⟩
  else if bme280_is_sleep_mode dev ≠ BME280_OK then
    ⟨bme280_is_sleep_mode dev, dev, s, []⟩
  else
    match d.read BME280_CTRL_MEAS_ADDR 1 s with
    | (none, s1) =>
        ⟨BME280_INTERFACE_ERR, dev, s1, [.rd BME280_CTRL_MEAS_ADDR 1]⟩
    | (some bs, s1) =>
        let ctrl_meas := bs.getD 0 0 % 256
        let tmp := (ctrl_meas >>> 5) &&& 0x07
        if TOvs = tmp then ⟨BME280_OK, dev, s1, [.rd BME280_CTRL_MEAS_ADDR 1]⟩
        else
          let cm := (ctrl_meas &&& 0x1F) ||| (TOvs <<< 5)
          let ws := d.write BME280_CTRL_MEAS_ADDR cm s1
          ⟨ws.1, dev, ws.2,
            [.rd BME280_CTRL_MEAS_ADDR 1, .wr BME280_CTRL_MEAS_ADDR cm]⟩

/-- `BME280_SetHOvs` of bme280.c: writes the humidity-control register
unconditionally, then reads and rewrites the measurement-control register
to latch the change (no no-op short-circuit exists in the source). -/
def BME280_SetHOvs {σ : Type} (d : BME280_Driver_t σ) (dev : BME280_t)
    (HOvs : Nat) (s : σ) : Outcome σ :=
  if HOvs > BME280_OVERSAMPLING_X16 then ⟨BME280_PARAM_ERR, dev, s, []⟩
  else if bme280_is_sleep_mode dev ≠ BME280_OK then
    ⟨bme280_is_sleep_mode dev, dev, s, []⟩
  else
    let w1 := d.write BME280_CTRL_HUM_ADDR HOvs s
    if w1.1 ≠ BME280_OK then
      ⟨BME280_INTERFACE_ERR, dev, w1.2, [.wr BME280_CTRL_HUM_ADDR HOvs]⟩
    else
      match d.read BME280_CTRL_MEAS_ADDR 1 w1.2 with
      | (none, s2) =>
          ⟨BME280_INTERFACE_ERR, dev, s2,
            [.wr BME280_CTRL_HUM_ADDR HOvs, .rd BME280_CTRL_MEAS_ADDR 1]⟩
      | (some bs, s2) =>
          let tmp := bs.getD 0 0 % 256
          let w2 := d.write BME280_CTRL_MEAS_ADDR tmp s2
          ⟨w2.1, dev, w2.2,
            [.wr BME280_CTRL_HUM_ADDR HOvs, .rd BME280_CTRL_MEAS_ADDR 1,
              .wr BME280_CTRL_MEAS_ADDR tmp]⟩

/-- `BME280_SetTStby` of bme280.c. -/
def BME280_SetTStby {σ : Type} (d : BME280_Driver_t σ) (dev : BME280_t)
    (TStby : Nat) (s : σ) : Outcome σ :=
  if TStby > BME280_STBY_20MS then ⟨BME280_PARAM_ERR, dev, s, []⟩
  else if bme280_is_sleep_mode dev ≠ BME280_OK then
    ⟨bme280_is_sleep_mode dev, dev, s, []⟩
  else
    match d.read BME280_CONFIG_ADDR 1 s with
    | (none, s1) =>
        ⟨BME280_INTERFACE_ERR, dev, s1, [.rd BME280_CONFIG_ADDR 1]⟩
    | (some bs, s1) =>
        let config := bs.getD 0 0 % 256
        let tmp := (config >>> 5) &&& 0x07
        if TStby = tmp then ⟨BME280_OK, dev, s1, [.rd BME280_CONFIG_ADDR 1]⟩
        else
          let cf := (config &&& 0x1F) ||| (TStby <<< 5)
          let ws := d.write BME280_CONFIG_ADDR cf s1
          ⟨ws.1, dev, ws.2, [.rd BME280_CONFIG_ADDR 1, .wr BME280_CONFIG_ADDR cf]⟩

/-- `BME280_SetFilter` of bme280.c. -/
def BME280_SetFilter {σ : Type} (d : BME280_Driver_t σ) (dev : BME280_t)
    (Filter : Nat) (s : σ) : Outcome σ :=
  if Filter > BME280_FILTER_16 then ⟨BME280_PARAM_ERR, dev, s, []⟩
  else if bme280_is_sleep_mode dev ≠ BME280_OK then
    ⟨bme280_is_sleep_mode dev, dev, s, []⟩
  else
    match d.read BME280_CONFIG_ADDR 1 s with
    | (none, s1) =>
        ⟨BME280_INTERFACE_ERR, dev, s1, [.rd BME280_CONFIG_ADDR 1]⟩
    | (some bs, s1) =>
        let config := bs.getD 0 0 % 256
        let tmp := (config >>> 2) &&& 0x07
        if Filter = tmp then ⟨BME280_OK, dev, s1, [.rd BME280_CONFIG_ADDR 1]⟩
        else
          let cf := (config &&& 0xE3) ||| (Filter <<< 2)
          let ws := d.write BME280_CONFIG_ADDR cf s1
          ⟨ws.1, dev, ws.2, [.rd BME280_CONFIG_ADDR 1, .wr BME280_CONFIG_ADDR cf]⟩

/-- `BME280_Enable3WireSPI` of bme280.c. -/
def BME280_Enable3WireSPI {σ : Type} (d : BME280_Driver_t σ) (dev : BME280_t)
    (s : σ) : Outcome σ :=
  if bme280_is_sleep_mode dev ≠ BME280_OK then
    ⟨bme280_is_sleep_mode dev, dev, s, []⟩
  else
    match d.read BME280_CONFIG_ADDR 1 s with
    | (none, s1) =>
        ⟨BME280_INTERFACE_ERR, dev, s1, [.rd BME280_CONFIG_ADDR 1]⟩
    | (some bs, s1) =>
        let config := bs.getD 0 0 % 256
        let tmp := config &&& 0x01
        if tmp = 0x01 then ⟨BME280_OK, dev, s1, [.rd BME280_CONFIG_ADDR 1]⟩
        else
          let cf := (config &&& 0xFE) ||| 0x01
          let ws := d.write BME280_CONFIG_ADDR cf s1
          ⟨ws.1, dev, ws.2, [.rd BME280_CONFIG_ADDR 1, .wr BME280_CONFIG_ADDR cf]⟩

/-- `BME280_Disable3WireSPI` of bme280.c. -/
def BME280_Disable3WireSPI {σ : Type} (d : BME280_Driver_t σ) (dev : BME280_t)
    (s : σ) : Outcome σ :=
  if bme280_is_sleep_mode dev ≠ BME280_OK then
    ⟨bme280_is_sleep_mode dev, dev, s, []⟩
  else
    match d.read BME280_CONFIG_ADDR 1 s with
    | (none, s1) =>
        ⟨BME280_INTERFACE_ERR, dev, s1, [.rd BME280_CONFIG_ADDR 1]⟩
    | (some bs, s1) =>
        let config := bs.getD 0 0 % 256
        let tmp := config &&& 0x01
        if tmp = 0x00 then ⟨BME280_OK, dev, s1, [.rd BME280_CONFIG_ADDR 1]⟩
        else
          let cf := config &&& 0xFE
          let ws := d.write BME280_CONFIG_ADDR cf s1
          ⟨ws.1, dev, ws.2, [.rd BME280_CONFIG_ADDR 1, .wr BME280_CONFIG_ADDR cf]⟩

/-- `BME280_SetMode` of bme280.c: allowed from any mode (only the
not-initialized result of the sleep check blocks it); skips the write when
the mode field read back already equals the request, otherwise writes and
updates the local mode on success only. -/
def BME280_SetMode {σ : Type} (d : BME280_Driver_t σ) (dev : BME280_t)
    (Mode : Nat) (s : σ) : Outcome σ :=
  if Mode > BME280_NORMALMODE then ⟨BME280_PARAM_ERR, dev, s, []⟩
  else if bme280_is_sleep_mode dev = BME280_NO_INIT_ERR then
    ⟨BME280_NO_INIT_ERR, dev, s, []⟩
  else
    match d.read BME280_CTRL_MEAS_ADDR 1 s with
    | (none, s1) =>
        ⟨BME280_INTERFACE_ERR, dev, s1, [.rd BME280_CTRL_MEAS_ADDR 1]⟩
    | (some bs, s1) =>
        let ctrl_meas := bs.getD 0 0 % 256
        let tmp0 := ctrl_meas &&& 0x03
        let tmp := if tmp0 = 0x02 then BME280_FORCEDMODE else tmp0
        if Mode = tmp then ⟨BME280_OK, dev, s1, [.rd BME280_CTRL_MEAS_ADDR 1]⟩
        else
          let cm := (ctrl_meas &&& 0xFC) ||| Mode
          let ws := d.write BME280_CTRL_MEAS_ADDR cm s1
          if ws.1 ≠ BME280_OK then
            ⟨BME280_INTERFACE_ERR, dev, ws.2,
              [.rd BME280_CTRL_MEAS_ADDR 1, .wr BME280_CTRL_MEAS_ADDR cm]⟩
          else
            ⟨ws.1, { dev with mode := Mode }, ws.2,
              [.rd BME280_CTRL_MEAS_ADDR 1, .wr BME280_CTRL_MEAS_ADDR cm]⟩

/-- Configuration value `BME280_Config_t`. -/
structure BME280_Config_t where
  oversampling_h : Nat
  oversampling_t : Nat
  oversampling_p : Nat
  mode : Nat
  t_stby : Nat
  filter : Nat
  spi3w_enable : Nat
deriving DecidableEq, Repr

/-- `BME280_ConfigureAll` of bme280.c: packs the three configuration bytes
and writes them unconditionally in the order humidity-control,
measurement-control, config, then updates the local mode field. -/
def BME280_ConfigureAll {σ : Type} (d : BME280_Driver_t σ) (dev : BME280_t)
    (Config : BME280_Config_t) (s : σ) : Outcome σ :=
  if bme280_is_sleep_mode dev ≠ BME280_OK then
    ⟨bme280_is_sleep_mode dev, dev, s, []⟩
  else
    let ctrl_hum := Config.oversampling_h &&& 0x07
    let ctrl_meas := ((Config.oversampling_t <<< 5) &&& 0xE0) |||
      ((Config.oversampling_p <<< 2) &&& 0x1C) ||| (Config.mode &&& 0x03)
    let config := ((Config.t_stby <<< 5) &&& 0xE0) |||
      ((Config.filter <<< 2) &&& 0x1C) ||| (Config.spi3w_enable &&& 0x01)
    let w1 := d.write BME280_CTRL_HUM_ADDR ctrl_hum s
    if w1.1 ≠ BME280_OK then
      ⟨BME280_INTERFACE_ERR, dev, w1.2, [.wr BME280_CTRL_HUM_ADDR ctrl_hum]⟩
    else
      let w2 := d.write BME280_CTRL_MEAS_ADDR ctrl_meas w1.2
      if w2.1 ≠ BME280_OK then
        ⟨BME280_INTERFACE_ERR, dev, w2.2,
          [.wr BME280_CTRL_HUM_ADDR ctrl_hum, .wr BME280_CTRL_MEAS_ADDR ctrl_meas]⟩
      else
        let w3 := d.write BME280_CONFIG_ADDR config w2.2
        if w3.1 ≠ BME280_OK then
          ⟨BME280_INTERFACE_ERR, dev, w3.2,
            [.wr BME280_CTRL_HUM_ADDR ctrl_hum,
              .wr BME280_CTRL_MEAS_ADDR ctrl_meas, .wr BME280_CONFIG_ADDR config]⟩
        else
          let dev' :=
            if Config.mode = BME280_SLEEPMODE then { dev with mode := sleep_mode }
            else if Config.mode = BME280_FORCEDMODE then { dev with mode := forced_mode }
            else if Config.mode = BME280_NORMALMODE then { dev with mode := normal_mode }
            else dev
          ⟨w3.1, dev', w3.2,
            [.wr BME280_CTRL_HUM_ADDR ctrl_hum,
              .wr BME280_CTRL_MEAS_ADDR ctrl_meas, .wr BME280_CONFIG_ADDR config]⟩

/-! ## Calibration parser -/

/-- `CAT_I16T` of bme280.c: concatenate two bytes into a signed half-word. -/
def CAT_I16T (msb lsb : Nat) : Int :=
  toI16 (((msb % 256) <<< 8) ||| (lsb % 256))

/-- `CAT_UI16T` of bme280.c: concatenate two bytes into an unsigned half-word. -/
def CAT_UI16T (msb lsb : Nat) : Nat :=
  (((msb % 256) <<< 8) ||| (lsb % 256)) % 65536

/-- Byte-to-field mapping of `bme280_read_compensation_parameters`
(bme280.c lines 1378-1400), as a pure function of the 32-byte buffer.
Each buffer access reduces mod 256 since the buffer holds `uint8_t`. -/
def bme280_parse_calibration (b : List Nat) : BME280_calibration_data :=
  let g := fun i => b.getD i 0 % 256
  { dig_T1 := CAT_UI16T (g 1) (g 0)
    dig_T2 := CAT_I16T (g 3) (g 2)
    dig_T3 := CAT_I16T (g 5) (g 4)
    dig_P1 := CAT_UI16T (g 7) (g 6)
    dig_P2 := CAT_I16T (g 9) (g 8)
    dig_P3 := CAT_I16T (g 11) (g 10)
    dig_P4 := CAT_I16T (g 13) (g 12)
    dig_P5 := CAT_I16T (g 15) (g 14)
    dig_P6 := CAT_I16T (g 17) (g 16)
    dig_P7 := CAT_I16T (g 19) (g 18)
    dig_P8 := CAT_I16T (g 21) (g 20)
    dig_P9 := CAT_I16T (g 23) (g 22)
    dig_H1 := g 24
    dig_H2 := CAT_I16T (g 26) (g 25)
    dig_H3 := g 27
    dig_H4 := (((g 28 <<< 4) ||| (g 29 &&& 0x0F) : Nat) : Int)
    dig_H5 := (((g 30 <<< 4) ||| (g 29 >>> 4) : Nat) : Int)
    dig_H6 := toI8 (g 31) }

/-- Pad or truncate a bus read result to the requested length (the bus
contract fills exactly `n` bytes on success). -/
def fitLen (n : Nat) (l : List Nat) : List Nat :=
  l.take n ++ List.replicate (n - l.length) 0

/-- `bme280_read_compensation_parameters` of bme280.c: two reads into one
32-byte buffer, then the fixed byte-to-field parse into `Dev->trimm`. -/
def bme280_read_compensation_parameters {σ : Type} (d : BME280_Driver_t σ)
    (dev : BME280_t) (s : σ) : Outcome σ :=
  match d.read BME280_CALIB_DATA1_ADDR BME280_CALIB_DATA1_LEN s with
  | (none, s1) =>
      ⟨BME280_INTERFACE_ERR, dev, s1,
        [.rd BME280_CALIB_DATA1_ADDR BME280_CALIB_DATA1_LEN]⟩
  | (some b1, s1) =>
      match d.read BME280_CALIB_DATA2_ADDR BME280_CALIB_DATA2_LEN s1 with
      | (none, s2) =>
          ⟨BME280_INTERFACE_ERR, dev, s2,
            [.rd BME280_CALIB_DATA1_ADDR BME280_CALIB_DATA1_LEN,
              .rd BME280_CALIB_DATA2_ADDR BME280_CALIB_DATA2_LEN]⟩
      | (some b2, s2) =>
          let buff := fitLen BME280_CALIB_DATA1_LEN b1 ++
            fitLen BME280_CALIB_DATA2_LEN b2
          ⟨BME280_OK, { dev with trimm := bme280_parse_calibration buff }, s2,
            [.rd BME280_CALIB_DATA1_ADDR BME280_CALIB_DATA1_LEN,
              .rd BME280_CALIB_DATA2_ADDR BME280_CALIB_DATA2_LEN]⟩

/-! ## Initialization -/

/-- `BME280_Init` of bme280.c: capability checks, reset, 4 ms start-up
delay, identity-register read (the comparison against the expected chip id
is commented out in the source), calibration read and parse, and only then
the `initialized` flag.  A failing step returns its code at once. -/
def BME280_Init {σ : Type} (d : BME280_Driver_t σ) (dev : BME280_t) (s : σ) :
    Outcome σ :=
  if d.hasWrite = false ∨ d.hasRead = false ∨ d.hasDelay = false then
    ⟨BME280_PARAM_ERR, dev, s, []⟩
  else
    let r := BME280_Reset d dev s
    if r.res ≠ BME280_OK then r
    else
      let tr1 := r.tr ++ [.dl 4]
      match d.read BME280_ID_ADDR 1 r.st with
      | (none, s2) =>
          ⟨BME280_INTERFACE_ERR, r.dev, s2, tr1 ++ [.rd BME280_ID_ADDR 1]⟩
      | (some _, s2) =>
          let c := bme280_read_compensation_parameters d r.dev s2
          if c.res = BME280_OK then
            ⟨BME280_OK, { c.dev with initialized := true }, c.st,
              tr1 ++ [.rd BME280_ID_ADDR 1] ++ c.tr⟩
          else
            ⟨c.res, c.dev, c.st, tr1 ++ [.rd BME280_ID_ADDR 1] ++ c.tr⟩

/-! ## Compensation engine -/

/-- `int32_t` addition (wrapping). -/
def add32 (a b : Int) : Int := toI32 (a + b)
/-- `int32_t` subtraction (wrapping). -/
def sub32 (a b : Int) : Int := toI32 (a - b)
/-- `int32_t` multiplication (wrapping). -/
def mul32 (a b : Int) : Int := toI32 (a * b)
/-- `int64_t` addition (wrapping). -/
def add64 (a b : Int) : Int := toI64 (a + b)
/-- `int64_t` subtraction (wrapping). -/
def sub64 (a b : Int) : Int := toI64 (a - b)
/-- `int64_t` multiplication (wrapping). -/
def mul64 (a b : Int) : Int := toI64 (a * b)

/-- Reinterpret a `uint32_t` value as `int32_t`. -/
def u32ToI32 (n : Nat) : Int :=
  let m := n % 4294967296
  if m < 2147483648 then (m : Int) else (m : Int) - 4294967296

/-- `bme280_compensate_t_s32t` of bme280.c: centi-degree temperature plus
the `t_fine` side effect stored into the device. C `/` is truncating
division (`Int.tdiv`). -/
def bme280_compensate_t_s32t (dev : BME280_t) (adc_T : Int) : Int × BME280_t :=
  let var1 := sub32 (adc_T.tdiv 8) (mul32 (dev.trimm.dig_T1 : Int) 2)
  let var1 := (mul32 var1 dev.trimm.dig_T2).tdiv 2048
  let var2 := sub32 (adc_T.tdiv 16) (dev.trimm.dig_T1 : Int)
  let var2 := (mul32 ((mul32 var2 var2).tdiv 4096) dev.trimm.dig_T3).tdiv 16384
  let t_fine := add32 var1 var2
  let temperature := (add32 (mul32 t_fine 5) 128).tdiv 256
  (temperature, { dev with t_fine := t_fine })

/-- The divisor coefficient combination `var1` of the 64-bit pressure path
(bme280.c lines 1516-1522), checked against zero before the division. -/
def bme280_p64_var1 (dev : BME280_t) : Int :=
  let var1 := sub64 dev.t_fine 128000
  let var1b := add64 ((mul64 (mul64 var1 var1) dev.trimm.dig_P3).tdiv 256)
    (mul64 (mul64 var1 dev.trimm.dig_P2) 4096)
  let var3 := mul64 1 140737488355328
  (mul64 (add64 var3 var1b) (dev.trimm.dig_P1 : Int)).tdiv 8589934592

/-- `bme280_compensate_p_u32t` of bme280.c, 64-bit path (`USE_64BIT`):
pressure in Pa scaled so that the value counts hundredths after the final
`*100/128` step; returns 0 when the coefficient combination is zero. -/
def bme280_compensate_p_u32t_64 (dev : BME280_t) (adc_P : Int) : Nat :=
  let var1 := sub64 dev.t_fine 128000
  let var2 := mul64 (mul64 var1 var1) dev.trimm.dig_P6
  let var2 := add64 var2 (mul64 (mul64 var1 dev.trimm.dig_P5) 131072)
  let var2 := add64 var2 (mul64 dev.trimm.dig_P4 34359738368)
  let var1d := bme280_p64_var1 dev
  if var1d ≠ 0 then
    let var4 := sub64 1048576 adc_P
    let var4 := (mul64 (sub64 (mul64 var4 2147483648) var2) 3125).tdiv var1d
    let v1 := (mul64 (mul64 dev.trimm.dig_P9 (var4.tdiv 8192))
      (var4.tdiv 8192)).tdiv 33554432
    let v2 := (mul64 dev.trimm.dig_P8 var4).tdiv 524288
    let var4 := add64 ((add64 (add64 var4 v1) v2).tdiv 256)
      (mul64 dev.trimm.dig_P7 16)
    toU32 ((mul64 (var4.tdiv 2) 100).tdiv 128)
  else
    0

/-- The divisor coefficient combination `var1` of the 32-bit pressure path
(bme280.c lines 1544-1550), checked against zero before the division.
Arithmetic right shift of a (possibly negative) `int32_t` is floor
division, i.e. Lean's `Int` division. -/
def bme280_p32_var1 (dev : BME280_t) : Int :=
  let var1 := sub32 (dev.t_fine / 2) 64000
  let var1b := (add32 ((mul32 dev.trimm.dig_P3
      ((mul32 (var1 / 4) (var1 / 4)) / 8192)) / 8)
    ((mul32 dev.trimm.dig_P2 var1) / 2)) / 262144
  (mul32 (add32 32768 var1b) (dev.trimm.dig_P1 : Int)) / 32768

/-- `bme280_compensate_p_u32t` of bme280.c, 32-bit fallback path: pressure
in Pa as `uint32_t`, returning 0 when the coefficient combination is zero.
Unsigned arithmetic is modulo 2^32. -/
def bme280_compensate_p_u32t_32 (dev : BME280_t) (adc_P : Int) : Nat :=
  let var1 := sub32 (dev.t_fine / 2) 64000
  let var2 := mul32 ((mul32 (var1 / 4) (var1 / 4)) / 2048) dev.trimm.dig_P6
  let var2 := add32 var2 (mul32 (mul32 var1 dev.trimm.dig_P5) 2)
  let var2 := add32 (var2 / 4) (mul32 dev.trimm.dig_P4 65536)
  let var1d := bme280_p32_var1 dev
  if var1d = 0 then 0
  else
    let p0 := toU32 ((u32ToI32 (toU32 (sub32 1048576 adc_P)) : Int) - (var2 / 4096))
    let pressure := (p0 * 3125) % 4294967296
    let pressure :=
      if pressure < 0x80000000 then ((pressure * 2) % 4294967296) / toU32 var1d
      else (pressure / toU32 var1d) * 2 % 4294967296
    let v1 := (mul32 dev.trimm.dig_P9
      (u32ToI32 (((pressure / 8) * (pressure / 8)) % 4294967296 / 8192))) / 4096
    let v2 := (mul32 (u32ToI32 (pressure / 4)) dev.trimm.dig_P8) / 8192
    toU32 (add32 (u32ToI32 pressure)
      ((add32 (add32 v1 v2) dev.trimm.dig_P7) / 16))

/-- `bme280_compensate_h_u32t` of bme280.c: humidity scaled x1024, with
the saturation clamp to [0, 419430400] before the final division. -/
def bme280_compensate_h_u32t (dev : BME280_t) (adc_H : Int) : Nat :=
  let var1 := sub32 dev.t_fine 76800
  let var2 := mul32 adc_H 16384
  let var3 := mul32 dev.trimm.dig_H4 1048576
  let var4 := mul32 dev.trimm.dig_H5 var1
  let var5 := (add32 (sub32 (sub32 var2 var3) var4) 16384).tdiv 32768
  let var2 := (mul32 var1 dev.trimm.dig_H6).tdiv 1024
  let var3 := (mul32 var1 (dev.trimm.dig_H3 : Int)).tdiv 2048
  let var4 := add32 ((mul32 var2 (add32 var3 32768)).tdiv 1024) 2097152
  let var2 := (add32 (mul32 var4 dev.trimm.dig_H2) 8192).tdiv 16384
  let var3 := mul32 var5 var2
  let var4 := ((mul32 (var3.tdiv 32768) (var3.tdiv 32768))).tdiv 128
  let var5 := sub32 var3 ((mul32 var4 (dev.trimm.dig_H1 : Int)).tdiv 16)
  let var5 := if var5 < 0 then 0 else var5
  let var5 := if var5 > 419430400 then 419430400 else var5
  (var5.tdiv 4096).toNat

/-! ## Forced-measurement orchestrator -/

/-- `bme280_osrs_to_oversampling` of bme280.c: register code to
oversampling multiplier. -/
def bme280_osrs_to_oversampling (osrs : Nat) : Nat :=
  if osrs ≤ BME280_OVERSAMPLING_X2 then osrs
  else if osrs = BME280_OVERSAMPLING_X4 then 4
  else if osrs = BME280_OVERSAMPLING_X8 then 8
  else 16

/-- The delay computation of `bme280_set_forced_mode` (bme280.c line 1715),
as a function of the three raw oversampling register codes. -/
def bme280_forced_delay (osrs_t osrs_p osrs_h : Nat) : Nat :=
  let t := bme280_osrs_to_oversampling osrs_t
  let p := bme280_osrs_to_oversampling osrs_p
  let h := bme280_osrs_to_oversampling osrs_h
  ((125 + 230 * t + (230 * p + 58) + (230 * h + 58)) / 100) + 1

/-- `bme280_set_forced_mode` of bme280.c: reads ctrl_hum, status and
ctrl_meas in one pass, checks busy bits and sleep mode, computes the delay
and writes the forced-mode bit.  Returns (result code, delay, bus state,
trace); the device struct is not touched by this function. -/
def bme280_set_forced_mode {σ : Type} (d : BME280_Driver_t σ) (s : σ) :
    Int × Nat × σ × List BusEvent :=
  match d.read BME280_CTRL_HUM_ADDR 3 s with
  | (none, s1) => (BME280_INTERFACE_ERR, 0, s1, [.rd BME280_CTRL_HUM_ADDR 3])
  | (some bs, s1) =>
      let b0 := bs.getD 0 0 % 256
      let b1 := bs.getD 1 0 % 256
      let b2 := bs.getD 2 0 % 256
      if b1 &&& 0x09 ≠ 0 then
        (BME280_BUSY_ERR, 0, s1, [.rd BME280_CTRL_HUM_ADDR 3])
      else if b2 &&& 0x03 ≠ BME280_SLEEPMODE then
        (BME280_CONDITION_ERR, 0, s1, [.rd BME280_CTRL_HUM_ADDR 3])
      else
        let osrs_p := (b2 >>> 2) &&& 0x07
        let osrs_t := (b2 >>> 5) &&& 0x07
        let osrs_h := b0 &&& 0x07
        let delay := bme280_forced_delay osrs_t osrs_p osrs_h
        let cm := (b2 &&& 0xFC) ||| BME280_FORCEDMODE
        let ws := d.write BME280_CTRL_MEAS_ADDR cm s1
        if ws.1 ≠ BME280_OK then
          (BME280_INTERFACE_ERR, delay, ws.2,
            [.rd BME280_CTRL_HUM_ADDR 3, .wr BME280_CTRL_MEAS_ADDR cm])
        else
          (BME280_OK, delay, ws.2,
            [.rd BME280_CTRL_HUM_ADDR 3, .wr BME280_CTRL_MEAS_ADDR cm])

/-! ## A register-file bus

For the idempotence claim the sensor is modelled as a register file whose
reads return the current register contents and whose writes always succeed
and are reflected by later reads. -/

/-- Sensor configuration registers backing the register-file bus. -/
structure Regs where
  ctrl_hum : Nat
  ctrl_meas : Nat
  config : Nat
  status : Nat
deriving DecidableEq, Repr

/-- Register-file bus: reads and writes on the configuration registers;
writes always succeed and later reads see them.  The 3-byte read starting
at the humidity-control register returns ctrl_hum, status, ctrl_meas in
register-address order as `bme280_set_forced_mode` expects. -/
def regBus : BME280_Driver_t Regs where
  read := fun addr len s =>
    if addr = BME280_CTRL_HUM_ADDR ∧ len = 1 then (some [s.ctrl_hum], s)
    else if addr = BME280_CTRL_HUM_ADDR ∧ len = 3 then
      (some [s.ctrl_hum, s.status, s.ctrl_meas], s)
    else if addr = BME280_CTRL_MEAS_ADDR ∧ len = 1 then (some [s.ctrl_meas], s)
    else if addr = BME280_CONFIG_ADDR ∧ len = 1 then (some [s.config], s)
    else if addr = BME280_STATUS_ADDR ∧ len = 1 then (some [s.status], s)
    else (none, s)
  write := fun addr v s =>
    if addr = BME280_CTRL_HUM_ADDR then (0, { s with ctrl_hum := v % 256 })
    else if addr = BME280_CTRL_MEAS_ADDR then (0, { s with ctrl_meas := v % 256 })
    else if addr = BME280_CONFIG_ADDR then (0, { s with config := v % 256 })
    else (0, s)
  hasRead := true
  hasWrite := true
  hasDelay := true

/-! ## Concrete instances used by witnesses and counterexamples -/

/-- All-zero calibration set. -/
def zeroTrimm : BME280_calibration_data :=
  ⟨0, 0, 0, 0, 0, 0, 0, 0, 0, 0, 0, 0, 0, 0, 0, 0, 0, 0⟩

/-- An uninitialized device whose local mode field holds `normal_mode`. -/
def devNormal : BME280_t := ⟨normal_mode, false, zeroTrimm, 0⟩

/-- An initialized device in sleep mode. -/
def devSleep : BME280_t := ⟨sleep_mode, true, zeroTrimm, 0⟩

/-- A device with all-zero trims and zero fine temperature (makes both
pressure coefficient combinations evaluate to zero). -/
def zdev : BME280_t := ⟨sleep_mode, true, zeroTrimm, 0⟩

/-- Stateless bus whose writes all fail with code -1 and whose reads fail. -/
def unitFailBus : BME280_Driver_t Unit where
  read := fun _ _ s => (none, s)
  write := fun _ _ s => (-1, s)
  hasRead := true
  hasWrite := true
  hasDelay := true

/-- Stateless bus whose reads return the requested number of zero bytes and
whose writes succeed. -/
def unitOkBus : BME280_Driver_t Unit where
  read := fun _ len s => (some (List.replicate len 0), s)
  write := fun _ _ s => (0, s)
  hasRead := true
  hasWrite := true
  hasDelay := true

/-! ## Claim C2: reset semantics -/

/-- C2: for every device state and every outcome of the underlying bus
write, `BME280_Reset` issues the reset command (the sole event of its
trace), forces the local mode field to sleep, and returns the underlying
I/O result, even when the write failed. -/
theorem BME280_Reset_forces_sleep {σ : Type} (d : BME280_Driver_t σ)
    (dev : BME280_t) (s : σ) (h : d.hasWrite = true) :
    (BME280_Reset d dev s).dev.mode = sleep_mode ∧
    (BME280_Reset d dev s).res = (d.write BME280_RESET_ADDR BME280_RESET_VALUE s).1 ∧
    (BME280_Reset d dev s).tr = [BusEvent.wr BME280_RESET_ADDR BME280_RESET_VALUE] := by
  simp [BME280_Reset, h]

/-- Witness for C2 at a bus whose reset write fails with code -1: the local
mode is sleep nevertheless and the -1 is surfaced. -/
theorem BME280_Reset_forces_sleep_witness :
    unitFailBus.hasWrite = true ∧
    ((BME280_Reset unitFailBus devNormal ()).dev.mode = sleep_mode ∧
      (BME280_Reset unitFailBus devNormal ()).res =
        (unitFailBus.write BME280_RESET_ADDR BME280_RESET_VALUE ()).1 ∧
      (BME280_Reset unitFailBus devNormal ()).tr =
        [BusEvent.wr BME280_RESET_ADDR BME280_RESET_VALUE]) :=
  ⟨rfl, BME280_Reset_forces_sleep unitFailBus devNormal () rfl⟩

/-! ## Claim C1: precondition failures touch no bus -/

/-- C1: whenever the device is not initialized or its local mode is not
sleep, every setter and the bulk configure return the sleep-check error
(NotInitializedError when uninitialized, else ConditionError) and perform
no bus event at all; in-range arguments are assumed for the setters whose
argument is otherwise rejected as a parameter error first. -/
theorem setters_precondition_no_bus {σ : Type} (d : BME280_Driver_t σ)
    (dev : BME280_t) (s : σ)
    (h : dev.initialized = false ∨ dev.mode ≠ sleep_mode) :
    (dev.initialized = false →
      bme280_is_sleep_mode dev = BME280_NO_INIT_ERR) ∧
    (dev.initialized = true → bme280_is_sleep_mode dev = BME280_CONDITION_ERR) ∧
    (∀ v, v ≤ BME280_OVERSAMPLING_X16 →
      (BME280_SetPOvs d dev v s).res = bme280_is_sleep_mode dev ∧
      (BME280_SetPOvs d dev v s).tr = []) ∧
    (∀ v, v ≤ BME280_OVERSAMPLING_X16 →
      (BME280_SetTOvs d dev v s).res = bme280_is_sleep_mode dev ∧
      (BME280_SetTOvs d dev v s).tr = []) ∧
    (∀ v, v ≤ BME280_OVERSAMPLING_X16 →
      (BME280_SetHOvs d dev v s).res = bme280_is_sleep_mode dev ∧
      (BME280_SetHOvs d dev v s).tr = []) ∧
    (∀ v, v ≤ BME280_STBY_20MS →
      (BME280_SetTStby d dev v s).res = bme280_is_sleep_mode dev ∧
      (BME280_SetTStby d dev v s).tr = []) ∧
    (∀ v, v ≤ BME280_FILTER_16 →
      (BME280_SetFilter d dev v s).res = bme280_is_sleep_mode dev ∧
      (BME280_SetFilter d dev v s).tr = []) ∧
    ((BME280_Enable3WireSPI d dev s).res = bme280_is_sleep_mode dev ∧
      (BME280_Enable3WireSPI d dev s).tr = []) ∧
    ((BME280_Disable3WireSPI d dev s).res = bme280_is_sleep_mode dev ∧
      (BME280_Disable3WireSPI d dev s).tr = []) ∧
    (∀ cfg : BME280_Config_t,
      (BME280_ConfigureAll d dev cfg s).res = bme280_is_sleep_mode dev ∧
      (BME280_ConfigureAll d dev cfg s).tr = []) := by
  have hne : bme280_is_sleep_mode dev ≠ BME280_OK := by
    unfold bme280_is_sleep_mode BME280_NO_INIT_ERR BME280_CONDITION_ERR BME280_OK
    rcases h with h | h
    · simp [h]
    · by_cases hi : dev.initialized = false <;> simp [hi, h]
  refine ⟨?_, ?_, ?_, ?_, ?_, ?_, ?_, ?_, ?_, ?_⟩
  · intro hi
    simp [bme280_is_sleep_mode, hi]
  · intro hi
    rcases h with h | h
    · rw [hi] at h; cases h
    · simp [bme280_is_sleep_mode, hi, h]
  · intro v hv
    rw [BME280_SetPOvs, if_neg (by omega), if_pos hne]
    exact ⟨rfl, rfl⟩
  · intro v hv
    rw [BME280_SetTOvs, if_neg (by omega), if_pos hne]
    exact ⟨rfl, rfl⟩
  · intro v hv
    rw [BME280_SetHOvs, if_neg (by omega), if_pos hne]
    exact ⟨rfl, rfl⟩
  · intro v hv
    rw [BME280_SetTStby, if_neg (by omega), if_pos hne]
    exact ⟨rfl, rfl⟩
  · intro v hv
    rw [BME280_SetFilter, if_neg (by omega), if_pos hne]
    exact ⟨rfl, rfl⟩
  · rw [BME280_Enable3WireSPI, if_pos hne]
    exact ⟨rfl, rfl⟩
  · rw [BME280_Disable3WireSPI, if_pos hne]
    exact ⟨rfl, rfl⟩
  · intro cfg
    rw [BME280_ConfigureAll, if_pos hne]
    exact ⟨rfl, rfl⟩

/-- Witness for C1 at an uninitialized device over the register-file bus. -/
theorem setters_precondition_no_bus_witness :
    (devNormal.initialized = false ∨ devNormal.mode ≠ sleep_mode) ∧
    ((BME280_SetPOvs regBus devNormal 1 ⟨0, 0, 0, 0⟩).res =
        bme280_is_sleep_mode devNormal ∧
      (BME280_SetPOvs regBus devNormal 1 ⟨0, 0, 0, 0⟩).tr = []) :=
  ⟨Or.inl rfl,
    (setters_precondition_no_bus regBus devNormal ⟨0, 0, 0, 0⟩
      (Or.inl rfl)).2.2.1 1 (by decide)⟩

/-! ## Claim C10: setters never touch the device state -/

/-- C10: for every device state, bus outcome and argument, the per-field
setters return the device structure unchanged (mode, initialized flag,
trims and fine temperature), whether they succeed or fail; `BME280_SetMode`
is the only setter that may update the mode field, and even it leaves the
other fields unchanged. -/
theorem setters_do_not_mutate_device {σ : Type} (d : BME280_Driver_t σ)
    (dev : BME280_t) (s : σ) :
    (∀ v, (BME280_SetPOvs d dev v s).dev = dev) ∧
    (∀ v, (BME280_SetTOvs d dev v s).dev = dev) ∧
    (∀ v, (BME280_SetHOvs d dev v s).dev = dev) ∧
    (∀ v, (BME280_SetTStby d dev v s).dev = dev) ∧
    (∀ v, (BME280_SetFilter d dev v s).dev = dev) ∧
    ((BME280_Enable3WireSPI d dev s).dev = dev) ∧
    ((BME280_Disable3WireSPI d dev s).dev = dev) ∧
    (∀ m, (BME280_SetMode d dev m s).dev.initialized = dev.initialized ∧
      (BME280_SetMode d dev m s).dev.trimm = dev.trimm ∧
      (BME280_SetMode d dev m s).dev.t_fine = dev.t_fine) := by
  refine ⟨?_, ?_, ?_, ?_, ?_, ?_, ?_, ?_⟩
  · intro v
    unfold BME280_SetPOvs
    repeat' first | split | dsimp only
  · intro v
    unfold BME280_SetTOvs
    repeat' first | split | dsimp only
  · intro v
    unfold BME280_SetHOvs
    repeat' first | split | dsimp only
  · intro v
    unfold BME280_SetTStby
    repeat' first | split | dsimp only
  · intro v
    unfold BME280_SetFilter
    repeat' first | split | dsimp only
  · unfold BME280_Enable3WireSPI
    repeat' first | split | dsimp only
  · unfold BME280_Disable3WireSPI
    repeat' first | split | dsimp only
  · intro m
    refine ⟨?_, ?_, ?_⟩ <;>
      (unfold BME280_SetMode; repeat' first | split | dsimp only)

/-! ## Claim C9: the identity comparison is bypassed -/

/-- Override a bus so that reads of the identity register succeed and
return the bytes `f s` for bus state `s`; all other behaviour is `d`'s. -/
def withId {σ : Type} (d : BME280_Driver_t σ) (f : σ → List Nat) :
    BME280_Driver_t σ :=
  { d with read := fun addr len s =>
      if addr = BME280_ID_ADDR then (some (f s), s) else d.read addr len s }

/-- C9: initialization never fails with an identity mismatch.  First, the
whole outcome of `BME280_Init` is independent of the identity byte values
the sensor returns.  Second, whenever the reset write succeeded and the
identity-register read succeeded, the call goes on to read the first
calibration range.  Third, `BME280_Init` can only return the
identity-error code if the platform write function itself produces that
code, never out of a comparison of its own. -/
theorem BME280_Init_ignores_identity_byte :
    (∀ (σ : Type) (d : BME280_Driver_t σ) (f g : σ → List Nat)
      (dev : BME280_t) (s : σ),
      BME280_Init (withId d f) dev s = BME280_Init (withId d g) dev s) ∧
    (∀ (σ : Type) (d : BME280_Driver_t σ) (dev : BME280_t) (s : σ),
      (d.write BME280_RESET_ADDR BME280_RESET_VALUE s).1 = BME280_OK →
      ((d.read BME280_ID_ADDR 1
          (d.write BME280_RESET_ADDR BME280_RESET_VALUE s).2).1).isSome = true →
      d.hasWrite = true → d.hasRead = true → d.hasDelay = true →
      BusEvent.rd BME280_CALIB_DATA1_ADDR BME280_CALIB_DATA1_LEN ∈
        (BME280_Init d dev s).tr) ∧
    (∀ (σ : Type) (d : BME280_Driver_t σ) (dev : BME280_t) (s : σ),
      (∀ a v s', (d.write a v s').1 ≠ BME280_ID_ERR) →
      (BME280_Init d dev s).res ≠ BME280_ID_ERR) := by
  refine ⟨?_, ?_, ?_⟩
  · intro σ d f g dev s
    by_cases hcap : d.hasWrite = false ∨ d.hasRead = false ∨ d.hasDelay = false
    · simp [BME280_Init, withId, hcap]
    · have hwr : d.hasWrite ≠ false := fun hf => hcap (Or.inl hf)
      unfold BME280_Init BME280_Reset withId bme280_read_compensation_parameters
      dsimp only
      rw [if_neg hcap, if_neg hcap, if_neg hwr]
      dsimp only
      split
      · rfl
      · simp only [BME280_ID_ADDR, BME280_CALIB_DATA1_ADDR, BME280_CALIB_DATA2_ADDR]
        norm_num
  · intro σ d dev s hw hid h1 h2 h3
    unfold BME280_Init BME280_Reset
    rw [if_neg (show ¬(d.hasWrite = false ∨ d.hasRead = false ∨ d.hasDelay = false) by
      simp [h1, h2, h3])]
    rw [if_neg (show ¬(d.hasWrite = false) by simp [h1])]
    dsimp only
    rw [if_neg (show ¬((d.write BME280_RESET_ADDR BME280_RESET_VALUE s).1 ≠ BME280_OK) by
      simp [hw])]
    rcases hr : d.read BME280_ID_ADDR 1
        (d.write BME280_RESET_ADDR BME280_RESET_VALUE s).2 with ⟨o2, s2⟩
    rcases o2 with _ | bs
    · rw [hr] at hid; simp at hid
    · dsimp only
      unfold bme280_read_compensation_parameters
      rcases h1r : d.read BME280_CALIB_DATA1_ADDR BME280_CALIB_DATA1_LEN s2
        with ⟨o3, s3⟩
      rcases o3 with _ | b1
      · simp [BME280_INTERFACE_ERR, BME280_OK]
      · rcases h2r : d.read BME280_CALIB_DATA2_ADDR BME280_CALIB_DATA2_LEN s3
          with ⟨o4, s4⟩
        rcases o4 with _ | b2 <;> simp [h2r, BME280_INTERFACE_ERR, BME280_OK]
  · intro σ d dev s hwid
    by_cases hcap : d.hasWrite = false ∨ d.hasRead = false ∨ d.hasDelay = false
    · simp [BME280_Init, hcap, BME280_PARAM_ERR, BME280_ID_ERR]
    · have hwr : ¬(d.hasWrite = false) := fun hf => hcap (Or.inl hf)
      unfold BME280_Init BME280_Reset
      rw [if_neg hcap, if_neg hwr]
      dsimp only
      by_cases hres : (d.write BME280_RESET_ADDR BME280_RESET_VALUE s).1 ≠ BME280_OK
      · rw [if_pos hres]
        exact hwid _ _ _
      · rw [if_neg hres]
        rcases hr : d.read BME280_ID_ADDR 1
            (d.write BME280_RESET_ADDR BME280_RESET_VALUE s).2 with ⟨o2, s2⟩
        rcases o2 with _ | bs
        · simp [BME280_INTERFACE_ERR, BME280_ID_ERR]
        · dsimp only
          unfold bme280_read_compensation_parameters
          rcases h1r : d.read BME280_CALIB_DATA1_ADDR BME280_CALIB_DATA1_LEN s2
            with ⟨o3, s3⟩
          rcases o3 with _ | b1
          · simp [BME280_INTERFACE_ERR, BME280_ID_ERR, BME280_OK]
          · rcases h2r : d.read BME280_CALIB_DATA2_ADDR BME280_CALIB_DATA2_LEN s3
              with ⟨o4, s4⟩
            rcases o4 with _ | b2 <;>
              simp [h2r, BME280_INTERFACE_ERR, BME280_ID_ERR, BME280_OK]

/-- Witness for C9: over a bus returning zero bytes (so the identity byte
0 differs from any expected chip id) initialization still reads the first
calibration range. -/
theorem BME280_Init_ignores_identity_byte_witness :
    ((unitOkBus.write BME280_RESET_ADDR BME280_RESET_VALUE ()).1 = BME280_OK ∧
      ((unitOkBus.read BME280_ID_ADDR 1
        (unitOkBus.write BME280_RESET_ADDR BME280_RESET_VALUE ()).2).1).isSome = true) ∧
    BusEvent.rd BME280_CALIB_DATA1_ADDR BME280_CALIB_DATA1_LEN ∈
      (BME280_Init unitOkBus devNormal ()).tr :=
  ⟨⟨rfl, rfl⟩,
    BME280_Init_ignores_identity_byte.2.1 Unit unitOkBus devNormal () rfl rfl
      rfl rfl rfl⟩

/-! ## Claim C3 (corrected): what a failing initialization leaves alone -/

/-- Counterexample to C3 as stated: on a bus whose reset write fails,
`BME280_Init` fails, yet the device's mode field has been forced from
normal to sleep by the embedded reset, so a field of the structure was
mutated by the failing call. -/
theorem BME280_Init_failure_mutates_mode :
    (BME280_Init unitFailBus devNormal ()).res ≠ BME280_OK ∧
    devNormal.mode = normal_mode ∧
    (BME280_Init unitFailBus devNormal ()).dev.mode = sleep_mode := by
  refine ⟨by decide, rfl, rfl⟩

/-- C3 as amended: when `BME280_Init` fails it leaves the initialized
flag, the calibration trims and the fine-temperature field unchanged, and
when the failure is a missing capability the whole device state is
untouched; the mode field, however, may have been forced to sleep by the
embedded reset (see the counterexample). -/
theorem BME280_Init_failure_frame {σ : Type} (d : BME280_Driver_t σ)
    (dev : BME280_t) (s : σ)
    (h : (BME280_Init d dev s).res ≠ BME280_OK) :
    (BME280_Init d dev s).dev.initialized = dev.initialized ∧
    (BME280_Init d dev s).dev.trimm = dev.trimm ∧
    (BME280_Init d dev s).dev.t_fine = dev.t_fine ∧
    ((d.hasWrite = false ∨ d.hasRead = false ∨ d.hasDelay = false) →
      (BME280_Init d dev s).dev = dev) := by
  by_cases hcap : d.hasWrite = false ∨ d.hasRead = false ∨ d.hasDelay = false
  · simp [BME280_Init, hcap]
  · have hwr : ¬(d.hasWrite = false) := fun hf => hcap (Or.inl hf)
    refine ?_
    rw [BME280_Init, if_neg hcap] at h ⊢
    rw [BME280_Reset, if_neg hwr] at h ⊢
    dsimp only at h ⊢
    by_cases hres : (d.write BME280_RESET_ADDR BME280_RESET_VALUE s).1 ≠ BME280_OK
    · rw [if_pos hres] at h ⊢
      exact ⟨rfl, rfl, rfl, fun hc => absurd hc hcap⟩
    · rw [if_neg hres] at h ⊢
      rcases hr : d.read BME280_ID_ADDR 1
          (d.write BME280_RESET_ADDR BME280_RESET_VALUE s).2 with ⟨o2, s2⟩
      rcases o2 with _ | bs
      · exact ⟨rfl, rfl, rfl, fun hc => absurd hc hcap⟩
      · dsimp only at h ⊢
        unfold bme280_read_compensation_parameters at h ⊢
        rcases h1r : d.read BME280_CALIB_DATA1_ADDR BME280_CALIB_DATA1_LEN s2
          with ⟨o3, s3⟩
        rcases o3 with _ | b1
        · exact ⟨rfl, rfl, rfl, fun hc => absurd hc hcap⟩
        · dsimp only at h ⊢
          rcases h2r : d.read BME280_CALIB_DATA2_ADDR BME280_CALIB_DATA2_LEN s3
            with ⟨o4, s4⟩
          rcases o4 with _ | b2
          · exact ⟨rfl, rfl, rfl, fun hc => absurd hc hcap⟩
          · simp [hr, h1r, h2r, BME280_OK] at h

/-- Witness for the amended C3 at a failing bus: the initialized flag,
trims and fine temperature of the device are untouched by the failed
initialization. -/
theorem BME280_Init_failure_frame_witness :
    (BME280_Init unitFailBus devNormal ()).res ≠ BME280_OK ∧
    ((BME280_Init unitFailBus devNormal ()).dev.initialized =
        devNormal.initialized ∧
      (BME280_Init unitFailBus devNormal ()).dev.trimm = devNormal.trimm ∧
      (BME280_Init unitFailBus devNormal ()).dev.t_fine = devNormal.t_fine ∧
      ((unitFailBus.hasWrite = false ∨ unitFailBus.hasRead = false ∨
          unitFailBus.hasDelay = false) →
        (BME280_Init unitFailBus devNormal ()).dev = devNormal)) :=
  ⟨by decide, BME280_Init_failure_frame unitFailBus devNormal () (by decide)⟩

/-! ## Claim C5: calibration byte-to-field packing rules -/

/-- Low nibble mask is mod 16. -/
theorem nat_and_15_eq_mod (x : Nat) : x &&& 15 = x % 16 := by
  have h := Nat.and_pow_two_sub_one_eq_mod x 4
  simpa using h

/-- Right shift by four is division by 16. -/
theorem nat_shiftRight4_eq_div (x : Nat) : x >>> 4 = x / 16 := by
  rw [Nat.shiftRight_eq_div_pow]

/-- A 4-bit left shift or-ed with a nibble is plain arithmetic packing. -/
theorem nat_shiftLeft4_or (x y : Nat) (hy : y < 16) :
    (x <<< 4) ||| y = 16 * x + y := by
  rw [Nat.shiftLeft_eq, Nat.mul_comm]
  have h := (Nat.mul_add_lt_is_or (b := y) (i := 4) (by omega) x).symm
  simpa using h

/-- An 8-bit left shift or-ed with a byte is plain arithmetic packing. -/
theorem nat_shiftLeft8_or (x y : Nat) (hy : y < 256) :
    (x <<< 8) ||| y = 256 * x + y := by
  rw [Nat.shiftLeft_eq, Nat.mul_comm]
  have h := (Nat.mul_add_lt_is_or (b := y) (i := 8) (by omega) x).symm
  simpa using h

/-- C5: the calibration parser follows the packed 12-bit humidity rules
`H4 = (byte 28 <<< 4) ||| (byte 29 &&& 0x0F)` and
`H5 = (byte 30 <<< 4) ||| (byte 29 >>> 4)` — stated here in their
arithmetic form 16*msb + low/high nibble — and combines every temperature
and pressure trim as `(msb <<< 8) ||| lsb` — stated as 256*msb + lsb —
typed unsigned 16-bit for T1 and P1 and signed 16-bit (two's complement,
`toI16`) for the rest. -/
theorem bme280_parse_calibration_packing (b : List Nat) :
    (bme280_parse_calibration b).dig_H4 =
      ((16 * (b.getD 28 0 % 256) + (b.getD 29 0 % 256) % 16 : Nat) : Int) ∧
    (bme280_parse_calibration b).dig_H5 =
      ((16 * (b.getD 30 0 % 256) + (b.getD 29 0 % 256) / 16 : Nat) : Int) ∧
    (bme280_parse_calibration b).dig_T1 =
      256 * (b.getD 1 0 % 256) + b.getD 0 0 % 256 ∧
    (bme280_parse_calibration b).dig_T2 =
      toI16 (256 * (b.getD 3 0 % 256) + b.getD 2 0 % 256) ∧
    (bme280_parse_calibration b).dig_T3 =
      toI16 (256 * (b.getD 5 0 % 256) + b.getD 4 0 % 256) ∧
    (bme280_parse_calibration b).dig_P1 =
      256 * (b.getD 7 0 % 256) + b.getD 6 0 % 256 ∧
    (bme280_parse_calibration b).dig_P2 =
      toI16 (256 * (b.getD 9 0 % 256) + b.getD 8 0 % 256) ∧
    (bme280_parse_calibration b).dig_P3 =
      toI16 (256 * (b.getD 11 0 % 256) + b.getD 10 0 % 256) ∧
    (bme280_parse_calibration b).dig_P4 =
      toI16 (256 * (b.getD 13 0 % 256) + b.getD 12 0 % 256) ∧
    (bme280_parse_calibration b).dig_P5 =
      toI16 (256 * (b.getD 15 0 % 256) + b.getD 14 0 % 256) ∧
    (bme280_parse_calibration b).dig_P6 =
      toI16 (256 * (b.getD 17 0 % 256) + b.getD 16 0 % 256) ∧
    (bme280_parse_calibration b).dig_P7 =
      toI16 (256 * (b.getD 19 0 % 256) + b.getD 18 0 % 256) ∧
    (bme280_parse_calibration b).dig_P8 =
      toI16 (256 * (b.getD 21 0 % 256) + b.getD 20 0 % 256) ∧
    (bme280_parse_calibration b).dig_P9 =
      toI16 (256 * (b.getD 23 0 % 256) + b.getD 22 0 % 256) := by
  have hmod : ∀ i : Nat, b.getD i 0 % 256 < 256 := fun i =>
    Nat.mod_lt _ (by norm_num)
  have hcatu : ∀ m l : Nat, CAT_UI16T m l = 256 * (m % 256) + l % 256 := by
    intro m l
    unfold CAT_UI16T
    rw [nat_shiftLeft8_or _ _ (Nat.mod_lt _ (by norm_num))]
    have h1 : m % 256 < 256 := Nat.mod_lt _ (by norm_num)
    have h2 : l % 256 < 256 := Nat.mod_lt _ (by norm_num)
    omega
  have hcati : ∀ m l : Nat, CAT_I16T m l = toI16 (256 * (m % 256) + l % 256) := by
    intro m l
    unfold CAT_I16T
    rw [nat_shiftLeft8_or _ _ (Nat.mod_lt _ (by norm_num))]
  refine ⟨?_, ?_, ?_, ?_, ?_, ?_, ?_, ?_, ?_, ?_, ?_, ?_, ?_, ?_⟩ <;>
    simp only [bme280_parse_calibration, hcatu, hcati]
  · rw [nat_and_15_eq_mod, nat_shiftLeft4_or _ _ (by
      have := hmod 29; omega)]
  · rw [nat_shiftRight4_eq_div, nat_shiftLeft4_or _ _ (by
      have := hmod 29; omega)]
  · omega
  · exact congrArg toI16 (by omega)
  · exact congrArg toI16 (by omega)
  · omega
  all_goals exact congrArg toI16 (by omega)

/-! ## Claim C7: humidity saturation -/

/-- The clamp-then-scale tail of humidity compensation keeps every value
inside the claimed output range, whatever the intermediate was. -/
theorem hum_clamp_tail_bound (x : Int) :
    ((if (if x < 0 then 0 else x) > 419430400 then (419430400 : Int)
      else if x < 0 then 0 else x).tdiv 4096).toNat ≤ 409600 := by
  by_cases h1 : x < 0
  · rw [if_pos h1, if_neg (by norm_num)]
    decide
  · rw [if_neg h1]
    by_cases h2 : x > 419430400
    · rw [if_pos h2]
      decide
    · rw [if_neg h2]
      rw [Int.tdiv_eq_ediv (by omega) (by norm_num)]
      omega

/-- C7: for every calibration set, fine temperature and raw humidity word,
the compensated humidity — clamped to [0, 419430400] before the final
scaling division in the source — lies in [0, 419430400/1024]; it is a
`Nat`, hence never negative, and never above the clamp ceiling. -/
theorem bme280_compensate_h_u32t_range (dev : BME280_t) (adc_H : Int) :
    bme280_compensate_h_u32t dev adc_H ≤ 419430400 / 1024 := by
  show bme280_compensate_h_u32t dev adc_H ≤ 409600
  simp only [bme280_compensate_h_u32t]
  exact hum_clamp_tail_bound _

/-! ## Claim C8: pressure division-by-zero guards -/

/-- C8: on both the 64-bit and the 32-bit pressure paths, whenever the
divisor coefficient combination `var1` evaluates to zero, the
compensation returns pressure exactly 0 (the guard takes the zero branch
instead of dividing). -/
theorem bme280_compensate_p_zero_guard :
    (∀ (dev : BME280_t) (adc_P : Int), bme280_p64_var1 dev = 0 →
      bme280_compensate_p_u32t_64 dev adc_P = 0) ∧
    (∀ (dev : BME280_t) (adc_P : Int), bme280_p32_var1 dev = 0 →
      bme280_compensate_p_u32t_32 dev adc_P = 0) := by
  constructor
  · intro dev adc_P h
    simp [bme280_compensate_p_u32t_64, h]
  · intro dev adc_P h
    simp [bme280_compensate_p_u32t_32, h]

/-- Witness for C8 at a device with all-zero trims: both coefficient
combinations are zero and both paths return zero pressure. -/
theorem bme280_compensate_p_zero_guard_witness :
    (bme280_p64_var1 zdev = 0 ∧ bme280_p32_var1 zdev = 0) ∧
    bme280_compensate_p_u32t_64 zdev 415148 = 0 ∧
    bme280_compensate_p_u32t_32 zdev 415148 = 0 :=
  ⟨⟨by decide, by decide⟩,
    bme280_compensate_p_zero_guard.1 zdev 415148 (by decide),
    bme280_compensate_p_zero_guard.2 zdev 415148 (by decide)⟩

/-! ## Claim C6 (corrected): forced-measurement delay formula -/

/-- The delay formula exactly as the spec words it, for comparison with
the source's `bme280_forced_delay`: ceil((125 + 230*T + 230*P + 58 +
230*H + 58) / 100) + 1 over the mapped multipliers, with the ceiling
written as (S + 99) / 100 on naturals. -/
def spec_forced_delay (osrs_t osrs_p osrs_h : Nat) : Nat :=
  let t := bme280_osrs_to_oversampling osrs_t
  let p := bme280_osrs_to_oversampling osrs_p
  let h := bme280_osrs_to_oversampling osrs_h
  ((125 + 230 * t + 230 * p + 58 + 230 * h + 58 + 99) / 100) + 1

/-- Counterexample to C6 as stated: for oversampling register codes
(1,1,1) the orchestrator computes a delay of 10 ms (floor division plus
one), while the spec's ceil(S/100)+1 formula yields 11 ms. -/
theorem bme280_forced_delay_counterexample :
    (bme280_set_forced_mode regBus ⟨1, 36, 0, 0⟩).2.1 = 10 ∧
    bme280_forced_delay 1 1 1 = 10 ∧
    spec_forced_delay 1 1 1 = 11 := by
  refine ⟨by decide, by decide, by decide⟩

/-- C6 as amended: the computed wait is floor(S/100)+1, which equals the
exact ceiling (S+99)/100 of S/100 — without a further +1 — because S =
241 + 230*(sum of multipliers) is odd and hence never a multiple of 100;
the register-code-to-multiplier table is as the claim states it (codes up
to 2 unchanged, 3 to 4, 4 to 8, anything at least 5 to 16). -/
theorem bme280_forced_delay_is_ceil :
    (∀ osrs_t osrs_p osrs_h : Nat,
      bme280_forced_delay osrs_t osrs_p osrs_h =
        (125 + 230 * bme280_osrs_to_oversampling osrs_t +
          (230 * bme280_osrs_to_oversampling osrs_p + 58) +
          (230 * bme280_osrs_to_oversampling osrs_h + 58) + 99) / 100) ∧
    (∀ c, c ≤ BME280_OVERSAMPLING_X2 → bme280_osrs_to_oversampling c = c) ∧
    bme280_osrs_to_oversampling BME280_OVERSAMPLING_X4 = 4 ∧
    bme280_osrs_to_oversampling BME280_OVERSAMPLING_X8 = 8 ∧
    (∀ c, BME280_OVERSAMPLING_X16 ≤ c → bme280_osrs_to_oversampling c = 16) := by
  refine ⟨?_, ?_, by decide, by decide, ?_⟩
  · intro osrs_t osrs_p osrs_h
    unfold bme280_forced_delay
    dsimp only
    generalize bme280_osrs_to_oversampling osrs_t = a
    generalize bme280_osrs_to_oversampling osrs_p = p
    generalize bme280_osrs_to_oversampling osrs_h = c
    omega
  · intro c hc
    unfold BME280_OVERSAMPLING_X2 at hc
    simp [bme280_osrs_to_oversampling, BME280_OVERSAMPLING_X2, hc]
  · intro c hc
    unfold BME280_OVERSAMPLING_X16 at hc
    unfold bme280_osrs_to_oversampling
    rw [if_neg (by unfold BME280_OVERSAMPLING_X2; omega),
      if_neg (by unfold BME280_OVERSAMPLING_X4; omega),
      if_neg (by unfold BME280_OVERSAMPLING_X8; omega)]

/-- Witness for the amended C6 at the maximal register codes (7,7,7): the
multiplier is 16 for each and the computed delay is the ceiling value. -/
theorem bme280_forced_delay_is_ceil_witness :
    BME280_OVERSAMPLING_X16 ≤ 7 ∧ (7 : Nat) ≤ BME280_OVERSAMPLING_X2 ∨
    (bme280_forced_delay 7 7 7 =
      (125 + 230 * bme280_osrs_to_oversampling 7 +
        (230 * bme280_osrs_to_oversampling 7 + 58) +
        (230 * bme280_osrs_to_oversampling 7 + 58) + 99) / 100 ∧
      bme280_osrs_to_oversampling 7 = 16 ∧
      bme280_osrs_to_oversampling 2 = 2) :=
  Or.inr ⟨bme280_forced_delay_is_ceil.1 7 7 7,
    bme280_forced_delay_is_ceil.2.2.2.2 7 (by decide),
    bme280_forced_delay_is_ceil.2.1 2 (by decide)⟩

/-! ## Claim C4: setter behaviour over the register-file bus

The run lemmas below characterize each setter's full outcome on `regBus`
for an initialized device in sleep mode. -/

/-- Outcome of `BME280_SetPOvs` on the register-file bus. -/
theorem BME280_SetPOvs_run (dev : BME280_t) (hinit : dev.initialized = true)
    (hmode : dev.mode = sleep_mode) (r : Regs) (v : Nat)
    (hv : v ≤ BME280_OVERSAMPLING_X16) (hcm : r.ctrl_meas < 256) :
    BME280_SetPOvs regBus dev v r =
      if v = (r.ctrl_meas >>> 2) &&& 0x07 then
        ⟨BME280_OK, dev, r, [.rd BME280_CTRL_MEAS_ADDR 1]⟩
      else
        ⟨0, dev,
          { r with ctrl_meas := ((r.ctrl_meas &&& 0xE3) ||| (v <<< 2)) % 256 },
          [.rd BME280_CTRL_MEAS_ADDR 1,
            .wr BME280_CTRL_MEAS_ADDR ((r.ctrl_meas &&& 0xE3) ||| (v <<< 2))]⟩ := by
  have hs : bme280_is_sleep_mode dev = BME280_OK := by
    simp [bme280_is_sleep_mode, hinit, hmode]
  have hv2 : ¬ (v > BME280_OVERSAMPLING_X16) := by omega
  simp only [BME280_SetPOvs, regBus, hs, hv2, if_false, ne_eq,
    BME280_CTRL_MEAS_ADDR, BME280_CTRL_HUM_ADDR, BME280_CONFIG_ADDR,
    BME280_STATUS_ADDR, List.getD]
  norm_num
  rw [Nat.mod_eq_of_lt hcm]

/-- Outcome of `BME280_SetTOvs` on the register-file bus. -/
theorem BME280_SetTOvs_run (dev : BME280_t) (hinit : dev.initialized = true)
    (hmode : dev.mode = sleep_mode) (r : Regs) (v : Nat)
    (hv : v ≤ BME280_OVERSAMPLING_X16) (hcm : r.ctrl_meas < 256) :
    BME280_SetTOvs regBus dev v r =
      if v = (r.ctrl_meas >>> 5) &&& 0x07 then
        ⟨BME280_OK, dev, r, [.rd BME280_CTRL_MEAS_ADDR 1]⟩
      else
        ⟨0, dev,
          { r with ctrl_meas := ((r.ctrl_meas &&& 0x1F) ||| (v <<< 5)) % 256 },
          [.rd BME280_CTRL_MEAS_ADDR 1,
            .wr BME280_CTRL_MEAS_ADDR ((r.ctrl_meas &&& 0x1F) ||| (v <<< 5))]⟩ := by
  have hs : bme280_is_sleep_mode dev = BME280_OK := by
    simp [bme280_is_sleep_mode, hinit, hmode]
  have hv2 : ¬ (v > BME280_OVERSAMPLING_X16) := by omega
  simp only [BME280_SetTOvs, regBus, hs, hv2, if_false, ne_eq,
    BME280_CTRL_MEAS_ADDR, BME280_CTRL_HUM_ADDR, BME280_CONFIG_ADDR,
    BME280_STATUS_ADDR, List.getD]
  norm_num
  rw [Nat.mod_eq_of_lt hcm]

/-- Outcome of `BME280_SetTStby` on the register-file bus. -/
theorem BME280_SetTStby_run (dev : BME280_t) (hinit : dev.initialized = true)
    (hmode : dev.mode = sleep_mode) (r : Regs) (v : Nat)
    (hv : v ≤ BME280_STBY_20MS) (hcf : r.config < 256) :
    BME280_SetTStby regBus dev v r =
      if v = (r.config >>> 5) &&& 0x07 then
        ⟨BME280_OK, dev, r, [.rd BME280_CONFIG_ADDR 1]⟩
      else
        ⟨0, dev,
          { r with config := ((r.config &&& 0x1F) ||| (v <<< 5)) % 256 },
          [.rd BME280_CONFIG_ADDR 1,
            .wr BME280_CONFIG_ADDR ((r.config &&& 0x1F) ||| (v <<< 5))]⟩ := by
  have hs : bme280_is_sleep_mode dev = BME280_OK := by
    simp [bme280_is_sleep_mode, hinit, hmode]
  have hv2 : ¬ (v > BME280_STBY_20MS) := by omega
  simp only [BME280_SetTStby, regBus, hs, hv2, if_false, ne_eq,
    BME280_CTRL_MEAS_ADDR, BME280_CTRL_HUM_ADDR, BME280_CONFIG_ADDR,
    BME280_STATUS_ADDR, List.getD]
  norm_num
  rw [Nat.mod_eq_of_lt hcf]

/-- Outcome of `BME280_SetFilter` on the register-file bus. -/
theorem BME280_SetFilter_run (dev : BME280_t) (hinit : dev.initialized = true)
    (hmode : dev.mode = sleep_mode) (r : Regs) (v : Nat)
    (hv : v ≤ BME280_FILTER_16) (hcf : r.config < 256) :
    BME280_SetFilter regBus dev v r =
      if v = (r.config >>> 2) &&& 0x07 then
        ⟨BME280_OK, dev, r, [.rd BME280_CONFIG_ADDR 1]⟩
      else
        ⟨0, dev,
          { r with config := ((r.config &&& 0xE3) ||| (v <<< 2)) % 256 },
          [.rd BME280_CONFIG_ADDR 1,
            .wr BME280_CONFIG_ADDR ((r.config &&& 0xE3) ||| (v <<< 2))]⟩ := by
  have hs : bme280_is_sleep_mode dev = BME280_OK := by
    simp [bme280_is_sleep_mode, hinit, hmode]
  have hv2 : ¬ (v > BME280_FILTER_16) := by omega
  simp only [BME280_SetFilter, regBus, hs, hv2, if_false, ne_eq,
    BME280_CTRL_MEAS_ADDR, BME280_CTRL_HUM_ADDR, BME280_CONFIG_ADDR,
    BME280_STATUS_ADDR, List.getD]
  norm_num
  rw [Nat.mod_eq_of_lt hcf]

/-- Outcome of `BME280_Enable3WireSPI` on the register-file bus. -/
theorem BME280_Enable3WireSPI_run (dev : BME280_t)
    (hinit : dev.initialized = true) (hmode : dev.mode = sleep_mode)
    (r : Regs) (hcf : r.config < 256) :
    BME280_Enable3WireSPI regBus dev r =
      if r.config &&& 0x01 = 0x01 then
        ⟨BME280_OK, dev, r, [.rd BME280_CONFIG_ADDR 1]⟩
      else
        ⟨0, dev, { r with config := ((r.config &&& 0xFE) ||| 0x01) % 256 },
          [.rd BME280_CONFIG_ADDR 1,
            .wr BME280_CONFIG_ADDR ((r.config &&& 0xFE) ||| 0x01)]⟩ := by
  have hs : bme280_is_sleep_mode dev = BME280_OK := by
    simp [bme280_is_sleep_mode, hinit, hmode]
  simp only [BME280_Enable3WireSPI, regBus, hs, ne_eq,
    BME280_CTRL_MEAS_ADDR, BME280_CTRL_HUM_ADDR, BME280_CONFIG_ADDR,
    BME280_STATUS_ADDR, List.getD]
  norm_num
  rw [Nat.mod_eq_of_lt hcf]

/-- Outcome of `BME280_Disable3WireSPI` on the register-file bus. -/
theorem BME280_Disable3WireSPI_run (dev : BME280_t)
    (hinit : dev.initialized = true) (hmode : dev.mode = sleep_mode)
    (r : Regs) (hcf : r.config < 256) :
    BME280_Disable3WireSPI regBus dev r =
      if r.config &&& 0x01 = 0x00 then
        ⟨BME280_OK, dev, r, [.rd BME280_CONFIG_ADDR 1]⟩
      else
        ⟨0, dev, { r with config := (r.config &&& 0xFE) % 256 },
          [.rd BME280_CONFIG_ADDR 1, .wr BME280_CONFIG_ADDR (r.config &&& 0xFE)]⟩ := by
  have hs : bme280_is_sleep_mode dev = BME280_OK := by
    simp [bme280_is_sleep_mode, hinit, hmode]
  simp only [BME280_Disable3WireSPI, regBus, hs, ne_eq,
    BME280_CTRL_MEAS_ADDR, BME280_CTRL_HUM_ADDR, BME280_CONFIG_ADDR,
    BME280_STATUS_ADDR, List.getD]
  norm_num
  rw [Nat.mod_eq_of_lt hcf]

/-- Outcome of `BME280_SetHOvs` on the register-file bus: two writes and
one read on every call, with no no-op short-circuit. -/
theorem BME280_SetHOvs_run (dev : BME280_t) (hinit : dev.initialized = true)
    (hmode : dev.mode = sleep_mode) (r : Regs) (v : Nat)
    (hv : v ≤ BME280_OVERSAMPLING_X16) (hcm : r.ctrl_meas < 256) :
    BME280_SetHOvs regBus dev v r =
      ⟨0, dev, { r with ctrl_hum := v % 256 },
        [.wr BME280_CTRL_HUM_ADDR v, .rd BME280_CTRL_MEAS_ADDR 1,
          .wr BME280_CTRL_MEAS_ADDR r.ctrl_meas]⟩ := by
  have hs : bme280_is_sleep_mode dev = BME280_OK := by
    simp [bme280_is_sleep_mode, hinit, hmode]
  have hv2 : ¬ (v > BME280_OVERSAMPLING_X16) := by omega
  simp only [BME280_SetHOvs, regBus, hs, hv2, if_false, ne_eq,
    BME280_CTRL_MEAS_ADDR, BME280_CTRL_HUM_ADDR, BME280_CONFIG_ADDR,
    BME280_STATUS_ADDR, List.getD]
  norm_num
  rw [Nat.mod_eq_of_lt hcm]
  simp [BME280_OK]

set_option maxRecDepth 10000

/-- Writing an oversampling field into bits [4:2] and reading it back
yields the written value. -/
theorem povs_field_roundtrip : ∀ cm < 256, ∀ v < 8,
    ((((cm &&& 0xE3) ||| (v <<< 2)) % 256) >>> 2) &&& 0x07 = v := by decide

/-- Writing a 3-bit field into bits [7:5] and reading it back yields the
written value. -/
theorem tovs_field_roundtrip : ∀ cm < 256, ∀ v < 8,
    ((((cm &&& 0x1F) ||| (v <<< 5)) % 256) >>> 5) &&& 0x07 = v := by decide

/-- After setting bit 0 the bit reads back as 1. -/
theorem spi_enable_bit : ∀ cf < 256,
    (((cf &&& 0xFE) ||| 0x01) % 256) &&& 0x01 = 0x01 := by decide

/-- After clearing bit 0 the bit reads back as 0. -/
theorem spi_disable_bit : ∀ cf < 256,
    ((cf &&& 0xFE) % 256) &&& 0x01 = 0x00 := by decide

/-- Counterexample to C4 as stated: `BME280_SetHOvs` has no read-compare
short-circuit, so calling it twice with the same value performs two bus
writes on the first call and again two writes — not zero — on the second
call, even though the registers reflect the first write. -/
theorem setter_idempotence_counterexample :
    writeCount (BME280_SetHOvs regBus devSleep 1 ⟨0, 0, 0, 0⟩).tr = 2 ∧
    writeCount (BME280_SetHOvs regBus
      (BME280_SetHOvs regBus devSleep 1 ⟨0, 0, 0, 0⟩).dev 1
      (BME280_SetHOvs regBus devSleep 1 ⟨0, 0, 0, 0⟩).st).tr = 2 := by
  exact ⟨by decide, by decide⟩

/-- C4 as amended: over the register-file bus, for an initialized device
in sleep mode and an in-range value, every read-compare setter (pressure
and temperature oversampling, standby, filter, both 3-wire-SPI calls)
performs at most one write on the first call — exactly one when the
current register field differs from the request — and zero writes on the
second identical call; humidity oversampling is the exception: it always
performs two writes (humidity-control plus the measurement-control
rewrite that latches it), on the first call and on every repeat. -/
theorem setter_idempotence_amended (dev : BME280_t)
    (hinit : dev.initialized = true) (hmode : dev.mode = sleep_mode) :
    (∀ (r : Regs) (v : Nat), v ≤ BME280_OVERSAMPLING_X16 → r.ctrl_meas < 256 →
      writeCount (BME280_SetPOvs regBus dev v r).tr ≤ 1 ∧
      ((r.ctrl_meas >>> 2) &&& 0x07 ≠ v →
        writeCount (BME280_SetPOvs regBus dev v r).tr = 1) ∧
      writeCount (BME280_SetPOvs regBus (BME280_SetPOvs regBus dev v r).dev v
        (BME280_SetPOvs regBus dev v r).st).tr = 0) ∧
    (∀ (r : Regs) (v : Nat), v ≤ BME280_OVERSAMPLING_X16 → r.ctrl_meas < 256 →
      writeCount (BME280_SetTOvs regBus dev v r).tr ≤ 1 ∧
      ((r.ctrl_meas >>> 5) &&& 0x07 ≠ v →
        writeCount (BME280_SetTOvs regBus dev v r).tr = 1) ∧
      writeCount (BME280_SetTOvs regBus (BME280_SetTOvs regBus dev v r).dev v
        (BME280_SetTOvs regBus dev v r).st).tr = 0) ∧
    (∀ (r : Regs) (v : Nat), v ≤ BME280_STBY_20MS → r.config < 256 →
      writeCount (BME280_SetTStby regBus dev v r).tr ≤ 1 ∧
      ((r.config >>> 5) &&& 0x07 ≠ v →
        writeCount (BME280_SetTStby regBus dev v r).tr = 1) ∧
      writeCount (BME280_SetTStby regBus (BME280_SetTStby regBus dev v r).dev v
        (BME280_SetTStby regBus dev v r).st).tr = 0) ∧
    (∀ (r : Regs) (v : Nat), v ≤ BME280_FILTER_16 → r.config < 256 →
      writeCount (BME280_SetFilter regBus dev v r).tr ≤ 1 ∧
      ((r.config >>> 2) &&& 0x07 ≠ v →
        writeCount (BME280_SetFilter regBus dev v r).tr = 1) ∧
      writeCount (BME280_SetFilter regBus (BME280_SetFilter regBus dev v r).dev v
        (BME280_SetFilter regBus dev v r).st).tr = 0) ∧
    (∀ r : Regs, r.config < 256 →
      writeCount (BME280_Enable3WireSPI regBus dev r).tr ≤ 1 ∧
      (r.config &&& 0x01 ≠ 0x01 →
        writeCount (BME280_Enable3WireSPI regBus dev r).tr = 1) ∧
      writeCount (BME280_Enable3WireSPI regBus
        (BME280_Enable3WireSPI regBus dev r).dev
        (BME280_Enable3WireSPI regBus dev r).st).tr = 0) ∧
    (∀ r : Regs, r.config < 256 →
      writeCount (BME280_Disable3WireSPI regBus dev r).tr ≤ 1 ∧
      (r.config &&& 0x01 ≠ 0x00 →
        writeCount (BME280_Disable3WireSPI regBus dev r).tr = 1) ∧
      writeCount (BME280_Disable3WireSPI regBus
        (BME280_Disable3WireSPI regBus dev r).dev
        (BME280_Disable3WireSPI regBus dev r).st).tr = 0) ∧
    (∀ (r : Regs) (v : Nat), v ≤ BME280_OVERSAMPLING_X16 → r.ctrl_meas < 256 →
      writeCount (BME280_SetHOvs regBus dev v r).tr = 2 ∧
      writeCount (BME280_SetHOvs regBus (BME280_SetHOvs regBus dev v r).dev v
        (BME280_SetHOvs regBus dev v r).st).tr = 2) := by
  refine ⟨?_, ?_, ?_, ?_, ?_, ?_, ?_⟩
  · intro r v hv hcm
    have h1 := BME280_SetPOvs_run dev hinit hmode r v hv hcm
    by_cases heq : v = (r.ctrl_meas >>> 2) &&& 0x07
    · rw [if_pos heq] at h1
      refine ⟨by rw [h1]; simp [writeCount],
        fun hne => absurd heq.symm hne, ?_⟩
      rw [h1]
      dsimp only
      rw [h1]
      simp [writeCount]
    · rw [if_neg heq] at h1
      have hv8 : v < 8 := by
        have hx : BME280_OVERSAMPLING_X16 = 5 := rfl
        omega
      have hrt := povs_field_roundtrip r.ctrl_meas hcm v hv8
      have h2 := BME280_SetPOvs_run dev hinit hmode
        { r with ctrl_meas := ((r.ctrl_meas &&& 0xE3) ||| (v <<< 2)) % 256 }
        v hv (Nat.mod_lt _ (by norm_num))
      dsimp only at h2
      rw [if_pos hrt.symm] at h2
      refine ⟨by rw [h1]; simp [writeCount],
        fun _ => by rw [h1]; simp [writeCount], ?_⟩
      rw [h1]
      dsimp only
      rw [h2]
      simp [writeCount]
  · intro r v hv hcm
    have h1 := BME280_SetTOvs_run dev hinit hmode r v hv hcm
    by_cases heq : v = (r.ctrl_meas >>> 5) &&& 0x07
    · rw [if_pos heq] at h1
      refine ⟨by rw [h1]; simp [writeCount],
        fun hne => absurd heq.symm hne, ?_⟩
      rw [h1]
      dsimp only
      rw [h1]
      simp [writeCount]
    · rw [if_neg heq] at h1
      have hv8 : v < 8 := by
        have hx : BME280_OVERSAMPLING_X16 = 5 := rfl
        omega
      have hrt := tovs_field_roundtrip r.ctrl_meas hcm v hv8
      have h2 := BME280_SetTOvs_run dev hinit hmode
        { r with ctrl_meas := ((r.ctrl_meas &&& 0x1F) ||| (v <<< 5)) % 256 }
        v hv (Nat.mod_lt _ (by norm_num))
      dsimp only at h2
      rw [if_pos hrt.symm] at h2
      refine ⟨by rw [h1]; simp [writeCount],
        fun _ => by rw [h1]; simp [writeCount], ?_⟩
      rw [h1]
      dsimp only
      rw [h2]
      simp [writeCount]
  · intro r v hv hcf
    have h1 := BME280_SetTStby_run dev hinit hmode r v hv hcf
    by_cases heq : v = (r.config >>> 5) &&& 0x07
    · rw [if_pos heq] at h1
      refine ⟨by rw [h1]; simp [writeCount],
        fun hne => absurd heq.symm hne, ?_⟩
      rw [h1]
      dsimp only
      rw [h1]
      simp [writeCount]
    · rw [if_neg heq] at h1
      have hv8 : v < 8 := by
        have hx : BME280_STBY_20MS = 7 := rfl
        omega
      have hrt := tovs_field_roundtrip r.config hcf v hv8
      have h2 := BME280_SetTStby_run dev hinit hmode
        { r with config := ((r.config &&& 0x1F) ||| (v <<< 5)) % 256 }
        v hv (Nat.mod_lt _ (by norm_num))
      dsimp only at h2
      rw [if_pos hrt.symm] at h2
      refine ⟨by rw [h1]; simp [writeCount],
        fun _ => by rw [h1]; simp [writeCount], ?_⟩
      rw [h1]
      dsimp only
      rw [h2]
      simp [writeCount]
  · intro r v hv hcf
    have h1 := BME280_SetFilter_run dev hinit hmode r v hv hcf
    by_cases heq : v = (r.config >>> 2) &&& 0x07
    · rw [if_pos heq] at h1
      refine ⟨by rw [h1]; simp [writeCount],
        fun hne => absurd heq.symm hne, ?_⟩
      rw [h1]
      dsimp only
      rw [h1]
      simp [writeCount]
    · rw [if_neg heq] at h1
      have hv8 : v < 8 := by
        have hx : BME280_FILTER_16 = 4 := rfl
        omega
      have hrt := povs_field_roundtrip r.config hcf v hv8
      have h2 := BME280_SetFilter_run dev hinit hmode
        { r with config := ((r.config &&& 0xE3) ||| (v <<< 2)) % 256 }
        v hv (Nat.mod_lt _ (by norm_num))
      dsimp only at h2
      rw [if_pos hrt.symm] at h2
      refine ⟨by rw [h1]; simp [writeCount],
        fun _ => by rw [h1]; simp [writeCount], ?_⟩
      rw [h1]
      dsimp only
      rw [h2]
      simp [writeCount]
  · intro r hcf
    have h1 := BME280_Enable3WireSPI_run dev hinit hmode r hcf
    by_cases heq : r.config &&& 0x01 = 0x01
    · rw [if_pos heq] at h1
      refine ⟨by rw [h1]; simp [writeCount], fun hne => absurd heq hne, ?_⟩
      rw [h1]
      dsimp only
      rw [h1]
      simp [writeCount]
    · rw [if_neg heq] at h1
      have hbit := spi_enable_bit r.config hcf
      have h2 := BME280_Enable3WireSPI_run dev hinit hmode
        { r with config := ((r.config &&& 0xFE) ||| 0x01) % 256 }
        (Nat.mod_lt _ (by norm_num))
      dsimp only at h2
      rw [if_pos hbit] at h2
      refine ⟨by rw [h1]; simp [writeCount],
        fun _ => by rw [h1]; simp [writeCount], ?_⟩
      rw [h1]
      dsimp only
      rw [h2]
      simp [writeCount]
  · intro r hcf
    have h1 := BME280_Disable3WireSPI_run dev hinit hmode r hcf
    by_cases heq : r.config &&& 0x01 = 0x00
    · rw [if_pos heq] at h1
      refine ⟨by rw [h1]; simp [writeCount], fun hne => absurd heq hne, ?_⟩
      rw [h1]
      dsimp only
      rw [h1]
      simp [writeCount]
    · rw [if_neg heq] at h1
      have hbit := spi_disable_bit r.config hcf
      have h2 := BME280_Disable3WireSPI_run dev hinit hmode
        { r with config := (r.config &&& 0xFE) % 256 }
        (Nat.mod_lt _ (by norm_num))
      dsimp only at h2
      rw [if_pos hbit] at h2
      refine ⟨by rw [h1]; simp [writeCount],
        fun _ => by rw [h1]; simp [writeCount], ?_⟩
      rw [h1]
      dsimp only
      rw [h2]
      simp [writeCount]
  · intro r v hv hcm
    have h1 := BME280_SetHOvs_run dev hinit hmode r v hv hcm
    have h2 := BME280_SetHOvs_run dev hinit hmode
      { r with ctrl_hum := v % 256 } v hv hcm
    refine ⟨by rw [h1]; simp [writeCount], ?_⟩
    rw [h1]
    dsimp only
    rw [h2]
    simp [writeCount]

/-- Witness for the amended C4 at a concrete sleeping device and
all-zero registers with value 1. -/
theorem setter_idempotence_amended_witness :
    (devSleep.initialized = true ∧ devSleep.mode = sleep_mode ∧
      (1 : Nat) ≤ BME280_OVERSAMPLING_X16 ∧
      (Regs.ctrl_meas ⟨0, 0, 0, 0⟩) < 256) ∧
    (writeCount (BME280_SetPOvs regBus devSleep 1 ⟨0, 0, 0, 0⟩).tr ≤ 1 ∧
      (((Regs.ctrl_meas ⟨0, 0, 0, 0⟩) >>> 2) &&& 0x07 ≠ 1 →
        writeCount (BME280_SetPOvs regBus devSleep 1 ⟨0, 0, 0, 0⟩).tr = 1) ∧
      writeCount (BME280_SetPOvs regBus
        (BME280_SetPOvs regBus devSleep 1 ⟨0, 0, 0, 0⟩).dev 1
        (BME280_SetPOvs regBus devSleep 1 ⟨0, 0, 0, 0⟩).st).tr = 0) :=
  ⟨⟨rfl, rfl, by decide, by decide⟩,
    (setter_idempotence_amended devSleep rfl rfl).1 ⟨0, 0, 0, 0⟩ 1
      (by decide) (by decide)⟩

end BME280
